import Mathlib

/-!
Shallow embedding of the `ai-consultant-mcp` consultation engine.

The definitions below are translated from the TypeScript sources:
`src/utils/RateLimiter.ts`, `src/infrastructure/Cache.ts`,
`src/services/ModelSelector.ts`, `src/services/ConsultationService.ts`
(with the MCP handler in `src/mcp/`).  JavaScript `Map` objects are
modelled as association lists with unique keys, timestamps as natural
numbers of milliseconds, and the upstream OpenRouter call as an oracle
function passed in explicitly.
-/

set_option maxRecDepth 40000

namespace AIConsultant

/-! ### JavaScript `Map` model (association list) -/

/-- `Map.get`: lookup of the first binding of a key. -/
def mapGet {α : Type} : List (String × α) → String → Option α
  | [], _ => none
  | (k, v) :: rest, key => if k = key then some v else mapGet rest key

/-- `Map.set`: replace the binding in place if the key is present,
otherwise append a new binding. -/
def mapSet {α : Type} : List (String × α) → String → α → List (String × α)
  | [], key, value => [(key, value)]
  | (k, v) :: rest, key, value =>
      if k = key then (key, value) :: rest else (k, v) :: mapSet rest key value

/-- `Map.delete`: remove the bindings of a key. -/
def mapDelete {α : Type} : List (String × α) → String → List (String × α)
  | [], _ => []
  | (k, v) :: rest, key =>
      if k = key then mapDelete rest key else (k, v) :: mapDelete rest key

theorem mapGet_set_self {α : Type} (m : List (String × α)) (k : String) (v : α) :
    mapGet (mapSet m k v) k = some v := by
  induction m with
  | nil => simp [mapGet, mapSet]
  | cons hd tl ih =>
      obtain ⟨k', v'⟩ := hd
      by_cases h : k' = k
      · simp [mapGet, mapSet, h]
      · simp [mapGet, mapSet, h, ih]

theorem mapGet_set_ne {α : Type} (m : List (String × α)) (k k' : String) (v : α)
    (h : k ≠ k') : mapGet (mapSet m k v) k' = mapGet m k' := by
  induction m with
  | nil => simp [mapGet, mapSet, h]
  | cons hd tl ih =>
      obtain ⟨k₀, v₀⟩ := hd
      by_cases h₀ : k₀ = k
      · subst h₀; simp [mapGet, mapSet, h]
      · simp [mapGet, mapSet, h₀, ih]

theorem mapGet_delete_self {α : Type} (m : List (String × α)) (k : String) :
    mapGet (mapDelete m k) k = none := by
  induction m with
  | nil => simp [mapGet, mapDelete]
  | cons hd tl ih =>
      obtain ⟨k₀, v₀⟩ := hd
      by_cases h₀ : k₀ = k
      · simp [mapDelete, h₀, ih]
      · simp [mapDelete, mapGet, h₀, ih]

theorem mapGet_delete_ne {α : Type} (m : List (String × α)) (k k' : String)
    (h : k ≠ k') : mapGet (mapDelete m k) k' = mapGet m k' := by
  induction m with
  | nil => simp [mapGet, mapDelete]
  | cons hd tl ih =>
      obtain ⟨k₀, v₀⟩ := hd
      by_cases h₀ : k₀ = k
      · subst h₀
        have hne : ¬(k₀ = k') := h
        simp [mapDelete, mapGet, hne, ih]
      · by_cases h₁ : k₀ = k'
        · simp [mapDelete, mapGet, h₀, h₁, Ne.symm h]
        · simp [mapDelete, mapGet, h₀, h₁, ih]

/-! ### RateLimiter (`src/utils/RateLimiter.ts`) -/

/-- One fixed-window entry of the rate limiter (`RateLimitEntry`). -/
structure RateLimitEntry where
  count : Nat
  resetTime : Nat
  deriving DecidableEq, Repr

/-- The rate limiter state: the window map plus the configured ceiling
(`requestsPerMinute`, default 20). -/
structure RateLimiter where
  limitMap : List (String × RateLimitEntry)
  requestsPerMinute : Nat
  deriving DecidableEq, Repr

/-- The fixed window length in milliseconds (`windowMs = 60000`). -/
def windowMs : Nat := 60000

/-- Outcome of `checkLimit`: `error = some w` models the thrown
`RateLimitError` with `waitTimeSeconds = w` (the map is left untouched on
that path), `error = none` models a successful return. -/
structure CheckOutcome where
  error : Option Nat
  state : RateLimiter
  deriving DecidableEq, Repr

/-- `RateLimiter.checkLimit(identifier)` at time `now` (= `Date.now()`):
reset or create a fresh entry if absent or `now > entry.resetTime`; throw
with `ceil((resetTime - now) / 1000)` seconds if `count >= requestsPerMinute`;
otherwise increment the counter. -/
def checkLimit (rl : RateLimiter) (now : Nat) (identifier : String) : CheckOutcome :=
  match mapGet rl.limitMap identifier with
  | none =>
      ⟨none, { rl with limitMap := mapSet rl.limitMap identifier ⟨1, now + windowMs⟩ }⟩
  | some entry =>
      if entry.resetTime < now then
        ⟨none, { rl with limitMap := mapSet rl.limitMap identifier ⟨1, now + windowMs⟩ }⟩
      else if rl.requestsPerMinute ≤ entry.count then
        ⟨some ((entry.resetTime - now + 999) / 1000), rl⟩
      else
        ⟨none,
          { rl with
            limitMap := mapSet rl.limitMap identifier ⟨entry.count + 1, entry.resetTime⟩ }⟩

/-- `RateLimiter.reset(identifier)`: delete one identifier's window. -/
def rlReset (rl : RateLimiter) (identifier : String) : RateLimiter :=
  { rl with limitMap := mapDelete rl.limitMap identifier }

/-- Run a sequence of `checkLimit` calls (at the given timestamps) for one
identifier; `none` when some call throws `RateLimitError`. -/
def checkRun (rl : RateLimiter) (times : List Nat) (identifier : String) :
    Option RateLimiter :=
  match times with
  | [] => some rl
  | t :: rest =>
      let out := checkLimit rl t identifier
      match out.error with
      | some _ => none
      | none => checkRun out.state rest identifier

/-! ### Conversation history (`HistoryManager` in `src/infrastructure/Cache.ts`) -/

/-- Message role (`"user" | "system" | "assistant"`). -/
inductive Role where
  | user
  | system
  | assistant
  deriving DecidableEq, Repr

/-- An `OpenRouterMessage`. -/
structure OpenRouterMessage where
  role : Role
  content : String
  deriving DecidableEq, Repr

/-- `HistoryManager`: the per-conversation message map plus the configured
`maxHistoryLength` (default 20). -/
structure HistoryManager where
  histories : List (String × List OpenRouterMessage)
  maxHistoryLength : Nat
  deriving DecidableEq, Repr

/-- `HistoryManager.getHistory`: inserts an empty list for an unseen id
(observable side effect), then returns the stored list. -/
def getHistory (hm : HistoryManager) (conversationId : String) :
    List OpenRouterMessage × HistoryManager :=
  match mapGet hm.histories conversationId with
  | some l => (l, hm)
  | none => ([], { hm with histories := mapSet hm.histories conversationId [] })

/-- `HistoryManager.updateHistory`: append the user and assistant messages,
then `splice(0, excess)` from the front when the list exceeds
`maxHistoryLength`, and store the result. -/
def updateHistory (hm : HistoryManager) (conversationId : String)
    (userMessage assistantMessage : OpenRouterMessage) : HistoryManager :=
  let g := getHistory hm conversationId
  let history := g.1 ++ [userMessage, assistantMessage]
  let pruned :=
    if hm.maxHistoryLength < history.length then
      history.drop (history.length - hm.maxHistoryLength)
    else history
  { g.2 with histories := mapSet g.2.histories conversationId pruned }

/-- `HistoryManager.clearHistory`: delete one conversation. -/
def clearHistory (hm : HistoryManager) (conversationId : String) : HistoryManager :=
  { hm with histories := mapDelete hm.histories conversationId }

/-- `HistoryManager.hasHistory`: the id is present and its list non-empty. -/
def hasHistory (hm : HistoryManager) (conversationId : String) : Bool :=
  match mapGet hm.histories conversationId with
  | none => false
  | some l => decide (0 < l.length)

/-- The list stored for a conversation (empty when the id is absent) — the
observable content `getHistory` would return. -/
def storedHistory (hm : HistoryManager) (conversationId : String) :
    List OpenRouterMessage :=
  (mapGet hm.histories conversationId).getD []

/-- A sequence of `updateHistory` calls on one conversation. -/
def runUpdates (hm : HistoryManager) (conversationId : String) :
    List (OpenRouterMessage × OpenRouterMessage) → HistoryManager
  | [] => hm
  | p :: rest =>
      runUpdates (updateHistory hm conversationId p.1 p.2) conversationId rest

/-- The flat message sequence appended by a list of update calls. -/
def msgsOfPairs (pairs : List (OpenRouterMessage × OpenRouterMessage)) :
    List OpenRouterMessage :=
  (pairs.map (fun p => [p.1, p.2])).flatten

/-! ### ModelSelector (`src/services/ModelSelector.ts`) -/

/-- A `ModelConfig` descriptor. -/
structure ModelConfig where
  id : String
  description : String
  bestFor : List String
  deriving DecidableEq, Repr

/-- `AVAILABLE_MODELS["gemini-2.5-pro"]`. -/
def gemini25ProModel : ModelConfig :=
  ⟨"google/gemini-2.5-pro",
   "Google's Gemini 2.5 Pro with large context window",
   ["large context", "general purpose", "quick questions"]⟩

/-- `AVAILABLE_MODELS["gpt-5-codex"]`. -/
def gpt5CodexModel : ModelConfig :=
  ⟨"openai/gpt-5-codex",
   "OpenAI's GPT-5 Codex, optimized for coding tasks",
   ["coding", "complex tasks", "large context", "debugging", "refactoring"]⟩

/-- `AVAILABLE_MODELS["grok-code-fast-1"]`. -/
def grokCodeFast1Model : ModelConfig :=
  ⟨"x-ai/grok-code-fast-1",
   "xAI's Grok Code Fast 1, optimized for code-related tasks",
   ["complex reasoning", "code review", "detailed analysis", "budget"]⟩

/-- JavaScript `String.prototype.toLowerCase` (character-wise lowering). -/
def strToLower (s : String) : String :=
  ⟨s.data.map Char.toLower⟩

/-- JavaScript `String.prototype.includes`: substring containment. -/
def strIncludes (s sub : String) : Bool :=
  decide (sub.data <:+: s.data)

/-- `ModelSelector.getModelById`: lookup in the fixed `AVAILABLE_MODELS` map. -/
def getModelById (modelId : String) : Option ModelConfig :=
  if modelId = "gemini-2.5-pro" then some gemini25ProModel
  else if modelId = "gpt-5-codex" then some gpt5CodexModel
  else if modelId = "grok-code-fast-1" then some grokCodeFast1Model
  else none

/-- The keyword list of `ModelSelector.isCodingTask`. -/
def codingKeywords : List String :=
  ["code", "coding", "typescript", "javascript", "python", "java",
   "refactor", "debug", "function", "class", "bug", "programming", "algorithm"]

/-- The keyword list of `ModelSelector.isComplexAnalysisTask`. -/
def complexKeywords : List String :=
  ["complex", "architecture", "system design", "detailed analysis",
   "in-depth", "comprehensive", "thorough"]

/-- The keyword list of `ModelSelector.isQuickQuestionTask`. -/
def quickKeywords : List String :=
  ["quick", "simple", "explain", "what is", "how to", "large context", "summary"]

/-- The keyword list of `ModelSelector.isBudgetTask`. -/
def budgetKeywords : List String :=
  ["budget", "cost-effective", "cheap", "affordable"]

/-- `ModelSelector.isCodingTask`: some coding keyword occurs in the text. -/
def isCodingTask (description : String) : Bool :=
  codingKeywords.any (fun k => strIncludes description k)

/-- `ModelSelector.isComplexAnalysisTask`. -/
def isComplexAnalysisTask (description : String) : Bool :=
  complexKeywords.any (fun k => strIncludes description k)

/-- `ModelSelector.isQuickQuestionTask`. -/
def isQuickQuestionTask (description : String) : Bool :=
  quickKeywords.any (fun k => strIncludes description k)

/-- `ModelSelector.isBudgetTask`. -/
def isBudgetTask (description : String) : Bool :=
  budgetKeywords.any (fun k => strIncludes description k)

/-- `ModelSelector.selectModel`: lower-case the task description, then test
the four keyword strategies in order; default to GPT-5 Codex. -/
def selectModel (taskDescription : String) : ModelConfig :=
  let lowerDesc := strToLower taskDescription
  if isCodingTask lowerDesc then gpt5CodexModel
  else if isComplexAnalysisTask lowerDesc then grokCodeFast1Model
  else if isQuickQuestionTask lowerDesc then gemini25ProModel
  else if isBudgetTask lowerDesc then grokCodeFast1Model
  else gpt5CodexModel

/-! ### Response cache key (`generateCacheKey` in `src/infrastructure/Cache.ts`) -/

/-- `generateCacheKey(prompt, model)`: the model id, a colon, and the first
100 characters of the prompt. -/
def generateCacheKey (prompt model : String) : String :=
  model ++ ":" ++ prompt.take 100

/-! ### ConsultationService (`src/services/ConsultationService.ts`) -/

/-- A `TokenUsage` triple (all fields optional in the API type). -/
structure TokenUsage where
  prompt_tokens : Option Nat
  completion_tokens : Option Nat
  total_tokens : Option Nat
  deriving DecidableEq, Repr

/-- A `ConsultResult`. -/
structure ConsultResult where
  model : String
  response : String
  usage : TokenUsage
  deriving DecidableEq, Repr

/-- The tool arguments of `consult_ai` (`ConsultArgs`). -/
structure ConsultArgs where
  prompt : String
  model : Option String := none
  models : Option (List String) := none
  task_description : Option String := none
  conversation_id : Option String := none
  clear_history : Bool := false
  deriving DecidableEq, Repr

/-- Errors the consult pipeline can surface: `RateLimitError`,
the plain `Error` thrown on a missing model list, and `ApiError`. -/
inductive ConsultError where
  | rateLimited (waitTimeSeconds : Nat)
  | validation (msg : String)
  | api (msg : String)
  deriving DecidableEq, Repr

/-- The mutable service state shared by the dependencies of
`ConsultationService`: the response cache, the history manager and the
rate limiter. -/
structure ServiceState where
  cache : List (String × ConsultResult)
  histories : HistoryManager
  rateLimiter : RateLimiter
  deriving DecidableEq, Repr

/-- The upstream call `apiClient.consultAI(prompt, model, history)`,
abstracted as an oracle: it either returns a `ConsultResult` or throws an
error carrying a message. -/
def ApiOracle : Type :=
  String → String → List OpenRouterMessage → Except String ConsultResult

/-- JavaScript truthiness of an optional string: `undefined` and `""` are
both falsy. -/
def jsStrOpt : Option String → Option String
  | none => none
  | some s => if s = "" then none else some s

/-- The `models && models.length > 0` guard: an absent or empty model list
does not count as a multi-model request. -/
def jsModels : Option (List String) → Option (List String)
  | none => none
  | some ms => if ms.length = 0 then none else some ms

/-- `taskDescription || prompt` (empty task description falls back to the
prompt). -/
def jsOrDefault (taskDescription : Option String) (prompt : String) : String :=
  match taskDescription with
  | none => prompt
  | some s => if s = "" then prompt else s

/-- `ConsultationService.selectModel`: a truthy explicit id is validated
via `getModelById` (an unknown id logs a warning and falls through);
otherwise the model is auto-selected from the task description or prompt. -/
def selectModelSvc (explicitModel taskDescription : Option String)
    (prompt : String) : String :=
  match jsStrOpt explicitModel with
  | some m =>
      match getModelById m with
      | some cfg => cfg.id
      | none => (selectModel (jsOrDefault taskDescription prompt)).id
  | none => (selectModel (jsOrDefault taskDescription prompt)).id

/-- `ConsultationService.checkCache`: look up by the generated cache key. -/
def checkCache (cache : List (String × ConsultResult)) (prompt model : String) :
    Option ConsultResult :=
  mapGet cache (generateCacheKey prompt model)

/-- One result entry collected by `consultMultipleModels`. -/
structure ModelEntry where
  model : String
  response : String
  usage : TokenUsage
  cached : Bool
  deriving DecidableEq, Repr

/-- The per-model resolution of `consultMultipleModels`
(`modelConfig ? modelConfig.id : modelId`): an unknown short id is used
verbatim. -/
def resolveBatchModel (modelId : String) : String :=
  match getModelById modelId with
  | some cfg => cfg.id
  | none => modelId

/-- The `conversation_id ? getHistory(...) : []` step of the loop body
(fetching a conversation's history inserts an empty list for unseen ids). -/
def loopHistory (cid : Option String) (st : ServiceState) :
    List OpenRouterMessage × ServiceState :=
  match cid with
  | some c =>
      let g := getHistory st.histories c
      (g.1, { st with histories := g.2 })
  | none => ([], st)

/-- The loop body of `consultMultipleModels` for one model id: resolve the
id, fetch history, check the cache (stateless requests only), call the
upstream oracle when there is no cached result, cache a fresh stateless
result, and produce the collected entry together with the token-usage
delta added to the running totals (`usage.X || 0` on success or cache hit,
nothing on a caught error). -/
def consultStep (api : ApiOracle) (prompt : String) (cid : Option String)
    (st : ServiceState) (modelId : String) :
    ModelEntry × (Nat × Nat × Nat) × ServiceState :=
  let selectedModel := resolveBatchModel modelId
  let h := loopHistory cid st
  let cachedResult :=
    match cid with
    | none => checkCache h.2.cache prompt selectedModel
    | some _ => none
  match cachedResult with
  | some r =>
      (⟨modelId, r.response, r.usage, true⟩,
       (r.usage.prompt_tokens.getD 0, r.usage.completion_tokens.getD 0,
        r.usage.total_tokens.getD 0),
       h.2)
  | none =>
      match api prompt selectedModel h.1 with
      | .ok r =>
          let st2 :=
            match cid with
            | none =>
                { h.2 with
                  cache := mapSet h.2.cache (generateCacheKey prompt selectedModel) r }
            | some _ => h.2
          (⟨modelId, r.response, r.usage, false⟩,
           (r.usage.prompt_tokens.getD 0, r.usage.completion_tokens.getD 0,
            r.usage.total_tokens.getD 0),
           st2)
      | .error msg =>
          (⟨modelId, "Error: " ++ msg, ⟨some 0, some 0, some 0⟩, false⟩,
           (0, 0, 0),
           h.2)

/-- The sequential loop of `consultMultipleModels`, with the `results`
array and the three token accumulators threaded exactly as in the source. -/
def consultLoopAux (api : ApiOracle) (prompt : String) (cid : Option String) :
    ServiceState → List String → List ModelEntry → Nat × Nat × Nat →
    List ModelEntry × (Nat × Nat × Nat) × ServiceState
  | st, [], acc, tot => (acc, tot, st)
  | st, modelId :: rest, acc, tot =>
      let s := consultStep api prompt cid st modelId
      consultLoopAux api prompt cid s.2.2 rest (acc ++ [s.1])
        (tot.1 + s.2.1.1, tot.2.1 + s.2.1.2.1, tot.2.2 + s.2.1.2.2)

/-- The whole model loop, started with empty results and zero totals. -/
def consultLoop (api : ApiOracle) (prompt : String) (cid : Option String)
    (st : ServiceState) (models : List String) :
    List ModelEntry × (Nat × Nat × Nat) × ServiceState :=
  consultLoopAux api prompt cid st models [] (0, 0, 0)

/-- `ConsultationService.combineResponses`, one entry at a time (the
`forEach` index is threaded explicitly). -/
def combineEntries : Nat → List ModelEntry → String
  | _, [] => ""
  | i, e :: rest =>
      "## Model " ++ toString (i + 1) ++ ": " ++ e.model ++
        (if e.cached then " (cached)" else "") ++ "\n\n" ++
      e.response ++ "\n\n" ++
      "**Tokens used:** " ++ toString (e.usage.total_tokens.getD 0) ++ "\n\n" ++
      "---\n\n" ++
      combineEntries (i + 1) rest

/-- `ConsultationService.combineResponses`. -/
def combineResponses (results : List ModelEntry) : String :=
  "# Multi-Model Consultation Results\n\n" ++ combineEntries 0 results

/-- `ConsultationService.consultMultipleModels`: validate the model list,
check the rate limit once, optionally clear history, run the sequential
per-model loop, then record one combined history turn (conversational
requests) and return the combined result. -/
def consultMultipleModels (api : ApiOracle) (st : ServiceState) (now : Nat)
    (args : ConsultArgs) : Except ConsultError (ConsultResult × ServiceState) :=
  match jsModels args.models with
  | none => .error (.validation "No models specified for multi-model consultation")
  | some models =>
      let cid := jsStrOpt args.conversation_id
      let rl := checkLimit st.rateLimiter now (cid.getD "global")
      match rl.error with
      | some w => .error (.rateLimited w)
      | none =>
          let st1 : ServiceState := { st with rateLimiter := rl.state }
          let st2 :=
            match cid, args.clear_history with
            | some c, true => { st1 with histories := clearHistory st1.histories c }
            | _, _ => st1
          let loopOut := consultLoop api args.prompt cid st2 models
          let combined := combineResponses loopOut.1
          let st3 :=
            match cid with
            | some c =>
                { loopOut.2.2 with
                  histories :=
                    updateHistory loopOut.2.2.histories c
                      ⟨Role.user, args.prompt⟩ ⟨Role.assistant, combined⟩ }
            | none => loopOut.2.2
          .ok
            (⟨"Multi-model: " ++ String.intercalate ", " models,
              combined,
              ⟨some loopOut.2.1.1, some loopOut.2.1.2.1, some loopOut.2.1.2.2⟩⟩,
             st3)

/-- `ConsultationService.consult`: dispatch to the multi-model path when a
non-empty model list is given; otherwise run the single-model pipeline
(rate limit, optional history clear, model resolution, stateless cache
check, history load, upstream call, history update, stateless cache
write). -/
def consult (api : ApiOracle) (st : ServiceState) (now : Nat)
    (args : ConsultArgs) : Except ConsultError (ConsultResult × ServiceState) :=
  match jsModels args.models with
  | some _ => consultMultipleModels api st now args
  | none =>
      let cid := jsStrOpt args.conversation_id
      let rl := checkLimit st.rateLimiter now (cid.getD "global")
      match rl.error with
      | some w => .error (.rateLimited w)
      | none =>
          let st1 : ServiceState := { st with rateLimiter := rl.state }
          let st2 :=
            match cid, args.clear_history with
            | some c, true => { st1 with histories := clearHistory st1.histories c }
            | _, _ => st1
          let selectedModel := selectModelSvc args.model args.task_description args.prompt
          match cid with
          | none =>
              match checkCache st2.cache args.prompt selectedModel with
              | some cached =>
                  .ok ({ cached with model := selectedModel ++ " (cached)" }, st2)
              | none =>
                  match api args.prompt selectedModel [] with
                  | .error msg => .error (.api msg)
                  | .ok result =>
                      .ok
                        (result,
                         { st2 with
                           cache :=
                             mapSet st2.cache
                               (generateCacheKey args.prompt selectedModel) result })
          | some c =>
              let g := getHistory st2.histories c
              let st3 : ServiceState := { st2 with histories := g.2 }
              match api args.prompt selectedModel g.1 with
              | .error msg => .error (.api msg)
              | .ok result =>
                  .ok
                    (result,
                     { st3 with
                       histories :=
                         updateHistory st3.histories c
                           ⟨Role.user, args.prompt⟩
                           ⟨Role.assistant, result.response⟩ })

/-- The `cached` flag the MCP tool handler derives from a consult result
(`result.model.includes("(cached)")` in `ToolHandler.handleConsultAI`). -/
def respCached (result : ConsultResult) : Bool :=
  strIncludes result.model "(cached)"

/-! ### Rate limiter theorems (claims C1, C10) -/

/-- Within one window (every timestamp at most the stored reset time),
starting from a stored count `k`, a run of checks succeeds exactly when
`k` plus the number of checks stays within the ceiling. -/
theorem checkRun_within_window (identifier : String) :
    ∀ (ts : List Nat) (rl : RateLimiter) (k R : Nat),
      mapGet rl.limitMap identifier = some ⟨k, R⟩ →
      k ≤ rl.requestsPerMinute →
      (∀ t ∈ ts, t ≤ R) →
      ((checkRun rl ts identifier).isSome ↔ k + ts.length ≤ rl.requestsPerMinute)
  | [], rl, k, R, _, hk, _ => by simp [checkRun, hk]
  | t :: ts, rl, k, R, hget, hk, hts => by
      have ht : t ≤ R := hts t (by simp)
      have hnoreset : ¬ R < t := by omega
      by_cases hceil : rl.requestsPerMinute ≤ k
      · have hnone : checkRun rl (t :: ts) identifier = none := by
          have : checkLimit rl t identifier = ⟨some ((R - t + 999) / 1000), rl⟩ := by
            simp [checkLimit, hget, hnoreset, hceil]
          simp [checkRun, this]
        rw [hnone]
        simp only [Option.isSome_none, Bool.false_eq_true, false_iff, List.length_cons]
        omega
      · have hlt : k < rl.requestsPerMinute := by omega
        have hstep : checkLimit rl t identifier =
            ⟨none, { rl with limitMap := mapSet rl.limitMap identifier ⟨k + 1, R⟩ }⟩ := by
          simp [checkLimit, hget, hnoreset, hceil]
        have hget' :
            mapGet (mapSet rl.limitMap identifier ⟨k + 1, R⟩) identifier =
              some ⟨k + 1, R⟩ := mapGet_set_self _ _ _
        have ih :
            ((checkRun
              { rl with limitMap := mapSet rl.limitMap identifier ⟨k + 1, R⟩ }
              ts identifier).isSome ↔ k + 1 + ts.length ≤ rl.requestsPerMinute) :=
          checkRun_within_window identifier ts
            { rl with limitMap := mapSet rl.limitMap identifier ⟨k + 1, R⟩ }
            (k + 1) R hget' hlt
            (fun t' ht' => hts t' (by simp [ht']))
        simp only [checkRun, hstep]
        rw [ih]
        simp only [List.length_cons]
        omega

/-- Claim C1, as stated, fails at the window boundary: with the ceiling
reached and the current time *equal* to the stored reset timestamp, the
check does not start a fresh window and succeed (the code resets only when
`now > resetTime`); it throws, and the wait-seconds value it carries is
`0`, not positive. -/
def rlBoundary : RateLimiter := ⟨[("global", ⟨2, 1000⟩)], 2⟩

/-- Counterexample to claim C1 at `now = resetTime`: the claim predicts a
fresh window and success (and positive wait on failure), the code returns
a `RateLimitError` carrying `0` and leaves the window untouched. -/
theorem checkLimit_boundary_counterexample :
    mapGet rlBoundary.limitMap "global" = some ⟨2, 1000⟩ ∧
    checkLimit rlBoundary 1000 "global" = ⟨some 0, rlBoundary⟩ := by
  constructor
  · rfl
  · rfl

/-- Amended claim C1: a fresh window (count 1) is started exactly when no
window exists or `now` is *strictly greater* than the reset timestamp;
within the window a check at the ceiling throws the ceiling division of
the remaining milliseconds (positive whenever `now < resetTime`, zero at
`now = resetTime`), and a check under the ceiling increments the count;
and, for a positive ceiling, `N` consecutive checks within one window
succeed iff `N ≤ ceiling`, with counting restarting at 1 after the window
elapses. -/
theorem checkLimit_correct (rl : RateLimiter) (now : Nat) (identifier : String)
    (hpos : 0 < rl.requestsPerMinute) :
    (mapGet rl.limitMap identifier = none →
      checkLimit rl now identifier =
        ⟨none, { rl with limitMap := mapSet rl.limitMap identifier ⟨1, now + windowMs⟩ }⟩) ∧
    (∀ e, mapGet rl.limitMap identifier = some e → e.resetTime < now →
      checkLimit rl now identifier =
        ⟨none, { rl with limitMap := mapSet rl.limitMap identifier ⟨1, now + windowMs⟩ }⟩) ∧
    (∀ e, mapGet rl.limitMap identifier = some e → now ≤ e.resetTime →
      rl.requestsPerMinute ≤ e.count →
      checkLimit rl now identifier = ⟨some ((e.resetTime - now + 999) / 1000), rl⟩ ∧
        (now < e.resetTime → 0 < (e.resetTime - now + 999) / 1000)) ∧
    (∀ e, mapGet rl.limitMap identifier = some e → now ≤ e.resetTime →
      e.count < rl.requestsPerMinute →
      checkLimit rl now identifier =
        ⟨none,
         { rl with
           limitMap := mapSet rl.limitMap identifier ⟨e.count + 1, e.resetTime⟩ }⟩) ∧
    (∀ (t0 : Nat) (ts : List Nat), mapGet rl.limitMap identifier = none →
      (∀ t ∈ ts, t ≤ t0 + windowMs) →
      ((checkRun rl (t0 :: ts) identifier).isSome ↔
        ts.length + 1 ≤ rl.requestsPerMinute)) := by
  refine ⟨?_, ?_, ?_, ?_, ?_⟩
  · intro h; simp [checkLimit, h]
  · intro e h hlt; simp [checkLimit, h, hlt]
  · intro e h hle hcount
    have hnoreset : ¬ e.resetTime < now := by omega
    refine ⟨by simp [checkLimit, h, hnoreset, hcount], ?_⟩
    intro hlt
    have : 1 ≤ e.resetTime - now := by omega
    omega
  · intro e h hle hcount
    have hnoreset : ¬ e.resetTime < now := by omega
    have hnotceil : ¬ rl.requestsPerMinute ≤ e.count := by omega
    simp [checkLimit, h, hnoreset, hnotceil]
  · intro t0 ts h hts
    have hfirst : checkLimit rl t0 identifier =
        ⟨none, { rl with limitMap := mapSet rl.limitMap identifier ⟨1, t0 + windowMs⟩ }⟩ := by
      simp [checkLimit, h]
    have hget' :
        mapGet (mapSet rl.limitMap identifier ⟨1, t0 + windowMs⟩) identifier =
          some ⟨1, t0 + windowMs⟩ := mapGet_set_self _ _ _
    have hrun :
        ((checkRun
          { rl with limitMap := mapSet rl.limitMap identifier ⟨1, t0 + windowMs⟩ }
          ts identifier).isSome ↔ 1 + ts.length ≤ rl.requestsPerMinute) :=
      checkRun_within_window identifier ts
        { rl with limitMap := mapSet rl.limitMap identifier ⟨1, t0 + windowMs⟩ }
        1 (t0 + windowMs) hget' hpos hts
    simp only [checkRun, hfirst]
    rw [hrun]
    omega

/-- Witness for the amended claim C1 at concrete inputs. -/
theorem checkLimit_correct_witness :
    checkLimit ⟨[], 2⟩ 5 "g" =
      ⟨none, { limitMap := mapSet [] "g" ⟨1, 5 + windowMs⟩, requestsPerMinute := 2 }⟩ ∧
    ((checkRun (⟨[], 2⟩ : RateLimiter) (5 :: [6, 7]) "g").isSome ↔
      [6, 7].length + 1 ≤ 2) := by
  constructor
  · exact (checkLimit_correct ⟨[], 2⟩ 5 "g" (by decide)).1 rfl
  · exact (checkLimit_correct ⟨[], 2⟩ 5 "g" (by decide)).2.2.2.2 5 [6, 7] rfl
      (by intro t ht; fin_cases ht <;> simp [windowMs])

/-- Claim C10: a `checkLimit` call for identifier `a` (successful or rate
limited) leaves every other identifier's window untouched, and `reset a`
removes exactly `a`'s entry. -/
theorem rateLimiter_frame (rl : RateLimiter) (now : Nat) (a b : String)
    (hab : a ≠ b) :
    mapGet (checkLimit rl now a).state.limitMap b = mapGet rl.limitMap b ∧
    mapGet (rlReset rl a).limitMap b = mapGet rl.limitMap b ∧
    mapGet (rlReset rl a).limitMap a = none := by
  refine ⟨?_, ?_, ?_⟩
  · unfold checkLimit
    cases h : mapGet rl.limitMap a with
    | none => simp [mapGet_set_ne _ _ _ _ hab]
    | some e =>
        by_cases h1 : e.resetTime < now
        · simp [h1, mapGet_set_ne _ _ _ _ hab]
        · by_cases h2 : rl.requestsPerMinute ≤ e.count
          · simp [h1, h2]
          · simp [h1, h2, mapGet_set_ne _ _ _ _ hab]
  · exact mapGet_delete_ne _ _ _ hab
  · exact mapGet_delete_self _ _

/-- Witness for claim C10 at concrete identifiers. -/
theorem rateLimiter_frame_witness :
    mapGet (checkLimit ⟨[("b", ⟨3, 70⟩)], 2⟩ 5 "a").state.limitMap "b" =
      mapGet [("b", (⟨3, 70⟩ : RateLimitEntry))] "b" ∧
    mapGet (rlReset ⟨[("b", ⟨3, 70⟩)], 2⟩ "a").limitMap "b" =
      mapGet [("b", (⟨3, 70⟩ : RateLimitEntry))] "b" ∧
    mapGet (rlReset ⟨[("b", ⟨3, 70⟩)], 2⟩ "a").limitMap "a" = none :=
  rateLimiter_frame ⟨[("b", ⟨3, 70⟩)], 2⟩ 5 "a" "b" (by decide)

/-! ### History manager theorems (claims C6, C7, C9) -/

/-- The trimming performed by one `updateHistory` call on a list already
holding the two new messages. -/
def pruneHistory (maxLen : Nat) (l : List OpenRouterMessage) : List OpenRouterMessage :=
  if maxLen < l.length then l.drop (l.length - maxLen) else l

theorem storedHistory_updateHistory (hm : HistoryManager) (cid : String)
    (u a : OpenRouterMessage) :
    storedHistory (updateHistory hm cid u a) cid =
      pruneHistory hm.maxHistoryLength (storedHistory hm cid ++ [u, a]) := by
  cases h : mapGet hm.histories cid with
  | some l =>
      simp [updateHistory, getHistory, storedHistory, pruneHistory, h, mapGet_set_self]
  | none =>
      simp [updateHistory, getHistory, storedHistory, pruneHistory, h, mapGet_set_self]

theorem updateHistory_maxLen (hm : HistoryManager) (cid : String)
    (u a : OpenRouterMessage) :
    (updateHistory hm cid u a).maxHistoryLength = hm.maxHistoryLength := by
  cases h : mapGet hm.histories cid <;>
    simp [updateHistory, getHistory, h]

theorem runUpdates_maxLen (cid : String) :
    ∀ (pairs : List (OpenRouterMessage × OpenRouterMessage)) (hm : HistoryManager),
      (runUpdates hm cid pairs).maxHistoryLength = hm.maxHistoryLength
  | [], hm => rfl
  | p :: rest, hm => by
      rw [runUpdates, runUpdates_maxLen cid rest, updateHistory_maxLen]

theorem pruneHistory_length (maxLen : Nat) (l : List OpenRouterMessage) :
    (pruneHistory maxLen l).length ≤ maxLen := by
  unfold pruneHistory
  by_cases h : maxLen < l.length
  · simp only [h, if_true, List.length_drop]
    omega
  · simp only [h, if_false]
    omega

theorem pruneHistory_suffix (maxLen : Nat) (l : List OpenRouterMessage) :
    pruneHistory maxLen l <:+ l := by
  unfold pruneHistory
  by_cases h : maxLen < l.length
  · simp only [h, if_true]
    exact List.drop_suffix _ _
  · simp [h]

theorem suffix_append_right {α : Type} {l₁ l₂ : List α} (t : List α)
    (h : l₁ <:+ l₂) : l₁ ++ t <:+ l₂ ++ t := by
  obtain ⟨s, rfl⟩ := h
  exact ⟨s, by simp⟩

/-- Claim C6: after every (non-empty) sequence of `updateHistory` calls the
stored list is bounded by the configured maximum, and it is a contiguous
suffix of everything ever appended to that conversation. -/
theorem historyManager_bounded_suffix (hm : HistoryManager) (cid : String)
    (pairs : List (OpenRouterMessage × OpenRouterMessage)) (hne : pairs ≠ []) :
    (storedHistory (runUpdates hm cid pairs) cid).length ≤ hm.maxHistoryLength ∧
    storedHistory (runUpdates hm cid pairs) cid <:+
      storedHistory hm cid ++ msgsOfPairs pairs := by
  induction pairs generalizing hm with
  | nil => exact absurd rfl hne
  | cons p rest ih =>
      obtain ⟨u, a⟩ := p
      by_cases hrest : rest = []
      · subst hrest
        constructor
        · rw [runUpdates, runUpdates, storedHistory_updateHistory]
          exact pruneHistory_length _ _
        · rw [runUpdates, runUpdates, storedHistory_updateHistory]
          have h1 := pruneHistory_suffix hm.maxHistoryLength
            (storedHistory hm cid ++ [u, a])
          simpa [msgsOfPairs] using h1
      · have ih' := ih (updateHistory hm cid u a) hrest
        constructor
        · rw [runUpdates]
          calc (storedHistory (runUpdates (updateHistory hm cid u a) cid rest) cid).length
              ≤ (updateHistory hm cid u a).maxHistoryLength := ih'.1
            _ = hm.maxHistoryLength := updateHistory_maxLen hm cid u a
        · rw [runUpdates]
          have h2 : storedHistory (updateHistory hm cid u a) cid ++ msgsOfPairs rest <:+
              (storedHistory hm cid ++ [u, a]) ++ msgsOfPairs rest :=
            suffix_append_right _
              (by rw [storedHistory_updateHistory]
                  exact pruneHistory_suffix _ _)
          have h3 := ih'.2.trans h2
          have heq : (storedHistory hm cid ++ [u, a]) ++ msgsOfPairs rest =
              storedHistory hm cid ++ msgsOfPairs ((u, a) :: rest) := by
            simp [msgsOfPairs]
          rw [heq] at h3
          exact h3

/-- Witness for claim C6: two updates against a maximum of 2. -/
theorem historyManager_bounded_suffix_witness :
    (storedHistory
        (runUpdates ⟨[], 2⟩ "c"
          [(⟨Role.user, "u1"⟩, ⟨Role.assistant, "a1"⟩),
           (⟨Role.user, "u2"⟩, ⟨Role.assistant, "a2"⟩)]) "c").length ≤ 2 ∧
    storedHistory
        (runUpdates ⟨[], 2⟩ "c"
          [(⟨Role.user, "u1"⟩, ⟨Role.assistant, "a1"⟩),
           (⟨Role.user, "u2"⟩, ⟨Role.assistant, "a2"⟩)]) "c" <:+
      storedHistory (⟨[], 2⟩ : HistoryManager) "c" ++
        msgsOfPairs
          [(⟨Role.user, "u1"⟩, ⟨Role.assistant, "a1"⟩),
           (⟨Role.user, "u2"⟩, ⟨Role.assistant, "a2"⟩)] :=
  historyManager_bounded_suffix ⟨[], 2⟩ "c" _ (by simp)

/-- A concrete manager with the *odd* maximum 3 and one stored pair, used
to refute claim C7. -/
def hmOddMax : HistoryManager :=
  ⟨[("c", [⟨Role.user, "u1"⟩, ⟨Role.assistant, "a1"⟩])], 3⟩

/-- Counterexample to claim C7: with `maxHistoryLength = 3` a single
update trims exactly one message — an odd number, splitting a
user/assistant pair (the retained list starts with an assistant message). -/
theorem updateHistory_odd_trim_counterexample :
    (storedHistory hmOddMax "c").length + 2 -
        (storedHistory
          (updateHistory hmOddMax "c" ⟨Role.user, "u2"⟩ ⟨Role.assistant, "a2"⟩)
          "c").length = 1 ∧
    ¬ Even ((storedHistory hmOddMax "c").length + 2 -
        (storedHistory
          (updateHistory hmOddMax "c" ⟨Role.user, "u2"⟩ ⟨Role.assistant, "a2"⟩)
          "c").length) ∧
    storedHistory
        (updateHistory hmOddMax "c" ⟨Role.user, "u2"⟩ ⟨Role.assistant, "a2"⟩) "c" =
      [⟨Role.assistant, "a1"⟩, ⟨Role.user, "u2"⟩, ⟨Role.assistant, "a2"⟩] := by
  refine ⟨by decide, by decide, by decide⟩

/-- Amended claim C7: when the configured maximum is even (as the default
20 is) and the stored list has even length (as it always does when built
by updates alone), each update trims an even number of messages — whole
user+assistant pairs — and leaves an even-length list; an odd maximum can
trim a single message. -/
theorem updateHistory_even_trim (hm : HistoryManager) (cid : String)
    (u a : OpenRouterMessage) (hmax : Even hm.maxHistoryLength)
    (hlen : Even (storedHistory hm cid).length) :
    Even ((storedHistory hm cid).length + 2 -
      (storedHistory (updateHistory hm cid u a) cid).length) ∧
    Even (storedHistory (updateHistory hm cid u a) cid).length := by
  rw [storedHistory_updateHistory]
  unfold pruneHistory
  obtain ⟨x, hx⟩ := hlen
  obtain ⟨y, hy⟩ := hmax
  split_ifs with h
  · constructor
    · refine ⟨x + 1 - y, ?_⟩
      simp only [List.length_drop, List.length_append, List.length_cons,
        List.length_nil] at h ⊢
      omega
    · refine ⟨y, ?_⟩
      simp only [List.length_drop, List.length_append, List.length_cons,
        List.length_nil] at h ⊢
      omega
  · constructor
    · refine ⟨0, ?_⟩
      simp only [List.length_append, List.length_cons, List.length_nil] at h ⊢
      omega
    · refine ⟨x + 1, ?_⟩
      simp only [List.length_append, List.length_cons, List.length_nil] at h ⊢
      omega

/-- Witness for the amended claim C7 at an even maximum. -/
theorem updateHistory_even_trim_witness :
    Even ((storedHistory ⟨[("c", [⟨Role.user, "u1"⟩, ⟨Role.assistant, "a1"⟩])], 2⟩ "c").length + 2 -
      (storedHistory
        (updateHistory ⟨[("c", [⟨Role.user, "u1"⟩, ⟨Role.assistant, "a1"⟩])], 2⟩ "c"
          ⟨Role.user, "u2"⟩ ⟨Role.assistant, "a2"⟩) "c").length) ∧
    Even (storedHistory
        (updateHistory ⟨[("c", [⟨Role.user, "u1"⟩, ⟨Role.assistant, "a1"⟩])], 2⟩ "c"
          ⟨Role.user, "u2"⟩ ⟨Role.assistant, "a2"⟩) "c").length :=
  updateHistory_even_trim _ "c" _ _ (by decide) (by decide)

/-- Claim C9: `hasHistory` is true exactly when a non-empty list is stored,
and `getHistory` on an unseen id stores an empty list, so `hasHistory`
stays false right after it. -/
theorem hasHistory_iff (hm : HistoryManager) (cid : String) :
    (hasHistory hm cid = true ↔
      ∃ l, mapGet hm.histories cid = some l ∧ l ≠ []) ∧
    (mapGet hm.histories cid = none →
      hasHistory (getHistory hm cid).2 cid = false) := by
  constructor
  · cases h : mapGet hm.histories cid with
    | none => simp [hasHistory, h]
    | some l =>
        simp only [hasHistory, h]
        constructor
        · intro hl
          refine ⟨l, rfl, ?_⟩
          intro hnil
          subst hnil
          simp at hl
        · rintro ⟨l', hl', hne⟩
          injection hl' with hl'
          subst hl'
          simpa [List.length_pos] using hne
  · intro h
    simp [getHistory, hasHistory, h, mapGet_set_self]

/-- Witness for claim C9: `getHistory` on an unseen id leaves `hasHistory`
false. -/
theorem hasHistory_iff_witness :
    hasHistory (getHistory (⟨[], 20⟩ : HistoryManager) "x").2 "x" = false :=
  (hasHistory_iff ⟨[], 20⟩ "x").2 rfl

/-! ### Model selector theorems (claim C8) -/

theorem isInfix_map {l₁ l₂ : List Char} (f : Char → Char) (h : l₁ <:+: l₂) :
    l₁.map f <:+: l₂.map f := by
  obtain ⟨s, t, rfl⟩ := h
  exact ⟨s.map f, t.map f, by simp⟩

theorem strIncludes_strToLower (s sub : String)
    (h : strIncludes s sub = true) :
    (strToLower sub).data <:+: (strToLower s).data := by
  have h' : sub.data <:+: s.data := of_decide_eq_true h
  simpa [strToLower] using isInfix_map Char.toLower h'

/-- Claim C8: `selectModel` is a pure deterministic function of the
lower-cased text; any text containing "refactor this function" selects the
coding model, the text "budget" selects the budget model, and an empty or
keyword-free text yields the fixed default descriptor (GPT-5 Codex). -/
theorem selectModel_keywords :
    (∀ s t : String, s = t → selectModel s = selectModel t) ∧
    (∀ t : String, strIncludes t "refactor this function" = true →
      selectModel t = gpt5CodexModel) ∧
    selectModel "budget" = grokCodeFast1Model ∧
    selectModel "" = gpt5CodexModel ∧
    (∀ t : String, isCodingTask (strToLower t) = false →
      isComplexAnalysisTask (strToLower t) = false →
      isQuickQuestionTask (strToLower t) = false →
      isBudgetTask (strToLower t) = false →
      selectModel t = gpt5CodexModel) := by
  refine ⟨?_, ?_, ?_, ?_, ?_⟩
  · intro s t h; rw [h]
  · intro t h
    have hlow := strIncludes_strToLower t "refactor this function" h
    have hself : (strToLower "refactor this function").data =
        "refactor this function".data := by decide
    rw [hself] at hlow
    have hsub : "refactor".data <:+: "refactor this function".data := by decide
    have hmem : "refactor" ∈ codingKeywords := by decide
    have hcoding : isCodingTask (strToLower t) = true := by
      unfold isCodingTask
      rw [List.any_eq_true]
      exact ⟨"refactor", hmem, decide_eq_true (hsub.trans hlow)⟩
    simp [selectModel, hcoding]
  · decide
  · decide
  · intro t h1 h2 h3 h4
    simp [selectModel, h1, h2, h3, h4]

/-- Witness for claim C8: a mixed-case text containing the coding phrase
and a keyword-free text. -/
theorem selectModel_keywords_witness :
    selectModel "please refactor this function" = gpt5CodexModel ∧
    selectModel "zzz" = gpt5CodexModel :=
  ⟨selectModel_keywords.2.1 "please refactor this function" (by decide),
   selectModel_keywords.2.2.2.2 "zzz" (by decide) (by decide) (by decide) (by decide)⟩

/-! ### Consultation service theorems (claims C3, C4, C5) -/

theorem respCached_append (m : String) :
    strIncludes (m ++ " (cached)") "(cached)" = true := by
  apply decide_eq_true
  show "(cached)".data <:+: (m ++ " (cached)").data
  have hdata : (m ++ " (cached)").data = m.data ++ " (cached)".data := rfl
  have hsp : " (cached)".data = ' ' :: "(cached)".data := rfl
  rw [hdata, hsp]
  exact ⟨m.data ++ [' '], [], by simp⟩

/-- Claim C5: a stateless request (no conversation id) whose key hits the
cache returns the cached response with the model label decorated by
`" (cached)"` (which is exactly what sets the tool handler's cache-hit
flag), for any upstream oracle, and leaves the cache and the histories
untouched — only the rate limiter advanced. -/
theorem consult_stateless_cache_hit (api : ApiOracle) (st : ServiceState)
    (now : Nat) (args : ConsultArgs) (r : ConsultResult)
    (hmodels : jsModels args.models = none)
    (hcid : jsStrOpt args.conversation_id = none)
    (hrl : (checkLimit st.rateLimiter now "global").error = none)
    (hcache : checkCache st.cache args.prompt
        (selectModelSvc args.model args.task_description args.prompt) = some r) :
    consult api st now args =
      .ok (⟨selectModelSvc args.model args.task_description args.prompt ++ " (cached)",
            r.response, r.usage⟩,
           { st with rateLimiter := (checkLimit st.rateLimiter now "global").state }) ∧
    respCached
      ⟨selectModelSvc args.model args.task_description args.prompt ++ " (cached)",
        r.response, r.usage⟩ = true := by
  constructor
  · cases hch : args.clear_history <;>
      simp [consult, hmodels, hcid, hrl, hcache, hch]
  · exact respCached_append _

/-- Witness state for the cache-hit scenario. -/
def cacheHitState : ServiceState :=
  ⟨[(generateCacheKey "hello" "openai/gpt-5-codex",
     ⟨"openai/gpt-5-codex", "cached resp", ⟨some 5, some 6, some 11⟩⟩)],
   ⟨[], 20⟩, ⟨[], 20⟩⟩

/-- Witness for claim C5 at a concrete cached request. -/
theorem consult_stateless_cache_hit_witness :
    consult (fun _ _ _ => .error "unreachable") cacheHitState 0 { prompt := "hello" } =
      .ok (⟨selectModelSvc none none "hello" ++ " (cached)",
            "cached resp", ⟨some 5, some 6, some 11⟩⟩,
           { cacheHitState with
             rateLimiter := (checkLimit cacheHitState.rateLimiter 0 "global").state }) ∧
    respCached
      ⟨selectModelSvc none none "hello" ++ " (cached)",
        "cached resp", ⟨some 5, some 6, some 11⟩⟩ = true :=
  consult_stateless_cache_hit (fun _ _ _ => .error "unreachable") cacheHitState 0
    { prompt := "hello" } ⟨"openai/gpt-5-codex", "cached resp", ⟨some 5, some 6, some 11⟩⟩
    rfl rfl rfl rfl

/-- A constant upstream oracle and an empty service state, used for the
concrete consult runs below. -/
def apiConst : ApiOracle :=
  fun _ m _ => .ok ⟨m, "resp", ⟨some 1, some 2, some 3⟩⟩

def stEmptySvc : ServiceState := ⟨[], ⟨[], 20⟩, ⟨[], 20⟩⟩

def argsEmptyModels : ConsultArgs := { prompt := "hello", models := some [] }

/-- Counterexample to claim C3: a consult request carrying an *empty*
models list is not rejected with a validation error — it is processed by
the single-model pipeline (here completing an upstream call and caching
the result). -/
theorem consult_emptyModels_counterexample :
    argsEmptyModels.models = some [] ∧
    consult apiConst stEmptySvc 0 argsEmptyModels =
      .ok (⟨"openai/gpt-5-codex", "resp", ⟨some 1, some 2, some 3⟩⟩,
           ⟨[(generateCacheKey "hello" "openai/gpt-5-codex",
              ⟨"openai/gpt-5-codex", "resp", ⟨some 1, some 2, some 3⟩⟩)],
            ⟨[], 20⟩,
            ⟨[("global", ⟨1, windowMs⟩)], 20⟩⟩) := by
  exact ⟨rfl, rfl⟩

/-- Amended claim C3: an empty models list is treated exactly like an
absent one — `consult` routes the request to the single-model path and
never raises the validation error; that error is raised only when
`consultMultipleModels` itself is entered with an absent or empty list. -/
theorem consult_emptyModels (api : ApiOracle) (st : ServiceState) (now : Nat)
    (args : ConsultArgs) (h : args.models = some []) :
    consult api st now args = consult api st now { args with models := none } ∧
    consultMultipleModels api st now args =
      .error (.validation "No models specified for multi-model consultation") := by
  constructor
  · simp [consult, h, jsModels]
  · simp [consultMultipleModels, h, jsModels]

/-- Witness for the amended claim C3. -/
theorem consult_emptyModels_witness :
    consult apiConst stEmptySvc 0 argsEmptyModels =
      consult apiConst stEmptySvc 0 { argsEmptyModels with models := none } ∧
    consultMultipleModels apiConst stEmptySvc 0 argsEmptyModels =
      .error (.validation "No models specified for multi-model consultation") :=
  consult_emptyModels apiConst stEmptySvc 0 argsEmptyModels rfl

/-- An upstream oracle that echoes the model string it was invoked with,
making the model actually consulted observable in the result. -/
def apiEchoModel : ApiOracle :=
  fun _ m _ => .ok ⟨m, m, ⟨some 1, some 1, some 2⟩⟩

/-- Counterexample to claim C4: in the multi-model loop an unknown short
id is *not* auto-selected from the prompt text — it is passed to the
upstream call verbatim (the echoing oracle shows `"bogus"` was consulted,
while auto-selection on the prompt would have chosen
`"openai/gpt-5-codex"`). -/
theorem batch_unknown_model_counterexample :
    getModelById "bogus" = none ∧
    (consultStep apiEchoModel "hello" none stEmptySvc "bogus").1 =
      ⟨"bogus", "bogus", ⟨some 1, some 1, some 2⟩, false⟩ ∧
    (selectModel "hello").id = "openai/gpt-5-codex" ∧
    "bogus" ≠ "openai/gpt-5-codex" := by
  refine ⟨rfl, rfl, by decide, by decide⟩

/-- Amended claim C4: an unknown model id never fails a request at model
resolution; in single-model mode it falls through to auto-selection from
the task-description-or-prompt text, while in the multi-model loop the
unknown id is used verbatim as the upstream model string. -/
theorem modelResolution_never_fails (m : String) (td : Option String) (p : String)
    (h : getModelById m = none) :
    (m ≠ "" → selectModelSvc (some m) td p = (selectModel (jsOrDefault td p)).id) ∧
    resolveBatchModel m = m := by
  constructor
  · intro hne
    simp [selectModelSvc, jsStrOpt, hne, h]
  · simp [resolveBatchModel, h]

/-- Witness for the amended claim C4 at the unknown id `"bogus"`. -/
theorem modelResolution_never_fails_witness :
    selectModelSvc (some "bogus") none "hello" =
      (selectModel (jsOrDefault none "hello")).id ∧
    resolveBatchModel "bogus" = "bogus" :=
  ⟨(modelResolution_never_fails "bogus" none "hello" rfl).1 (by decide),
   (modelResolution_never_fails "bogus" none "hello" rfl).2⟩

/-! ### Multi-model consultation theorems (claim C2) -/

/-- Sum of the prompt-token fields over collected entries (absent fields
count as zero). -/
def sumPromptTok (es : List ModelEntry) : Nat :=
  (es.map (fun e => e.usage.prompt_tokens.getD 0)).sum

/-- Sum of the completion-token fields over collected entries. -/
def sumCompletionTok (es : List ModelEntry) : Nat :=
  (es.map (fun e => e.usage.completion_tokens.getD 0)).sum

/-- Sum of the total-token fields over collected entries. -/
def sumTotalTok (es : List ModelEntry) : Nat :=
  (es.map (fun e => e.usage.total_tokens.getD 0)).sum

theorem sumPromptTok_append (es : List ModelEntry) (e : ModelEntry) :
    sumPromptTok (es ++ [e]) = sumPromptTok es + e.usage.prompt_tokens.getD 0 := by
  simp [sumPromptTok]

theorem sumCompletionTok_append (es : List ModelEntry) (e : ModelEntry) :
    sumCompletionTok (es ++ [e]) =
      sumCompletionTok es + e.usage.completion_tokens.getD 0 := by
  simp [sumCompletionTok]

theorem sumTotalTok_append (es : List ModelEntry) (e : ModelEntry) :
    sumTotalTok (es ++ [e]) = sumTotalTok es + e.usage.total_tokens.getD 0 := by
  simp [sumTotalTok]

theorem consultStep_model (api : ApiOracle) (prompt : String) (cid : Option String)
    (st : ServiceState) (mid : String) :
    (consultStep api prompt cid st mid).1.model = mid := by
  cases cid with
  | none =>
      unfold consultStep
      dsimp only
      split
      · rfl
      · split <;> rfl
  | some c =>
      unfold consultStep
      dsimp only
      split <;> rfl

theorem consultStep_totals (api : ApiOracle) (prompt : String) (cid : Option String)
    (st : ServiceState) (mid : String) :
    (consultStep api prompt cid st mid).2.1.1 =
      (consultStep api prompt cid st mid).1.usage.prompt_tokens.getD 0 ∧
    (consultStep api prompt cid st mid).2.1.2.1 =
      (consultStep api prompt cid st mid).1.usage.completion_tokens.getD 0 ∧
    (consultStep api prompt cid st mid).2.1.2.2 =
      (consultStep api prompt cid st mid).1.usage.total_tokens.getD 0 := by
  cases cid with
  | none =>
      unfold consultStep
      dsimp only
      split
      · exact ⟨rfl, rfl, rfl⟩
      · split <;> exact ⟨rfl, rfl, rfl⟩
  | some c =>
      unfold consultStep
      dsimp only
      split <;> exact ⟨rfl, rfl, rfl⟩

theorem consultLoopAux_spec (api : ApiOracle) (prompt : String) (cid : Option String) :
    ∀ (ms : List String) (st : ServiceState) (acc : List ModelEntry)
      (tot : Nat × Nat × Nat),
      ((consultLoopAux api prompt cid st ms acc tot).1.map (fun e => e.model) =
        acc.map (fun e => e.model) ++ ms) ∧
      ((consultLoopAux api prompt cid st ms acc tot).2.1.1 + sumPromptTok acc =
        tot.1 + sumPromptTok (consultLoopAux api prompt cid st ms acc tot).1) ∧
      ((consultLoopAux api prompt cid st ms acc tot).2.1.2.1 + sumCompletionTok acc =
        tot.2.1 + sumCompletionTok (consultLoopAux api prompt cid st ms acc tot).1) ∧
      ((consultLoopAux api prompt cid st ms acc tot).2.1.2.2 + sumTotalTok acc =
        tot.2.2 + sumTotalTok (consultLoopAux api prompt cid st ms acc tot).1)
  | [], st, acc, tot => by simp [consultLoopAux]
  | mid :: rest, st, acc, tot => by
      obtain ⟨ihm, ihp, ihc, iht⟩ := consultLoopAux_spec api prompt cid rest
        (consultStep api prompt cid st mid).2.2
        (acc ++ [(consultStep api prompt cid st mid).1])
        (tot.1 + (consultStep api prompt cid st mid).2.1.1,
         tot.2.1 + (consultStep api prompt cid st mid).2.1.2.1,
         tot.2.2 + (consultStep api prompt cid st mid).2.1.2.2)
      obtain ⟨hp, hc, ht⟩ := consultStep_totals api prompt cid st mid
      have hmodel := consultStep_model api prompt cid st mid
      dsimp only at ihm ihp ihc iht
      rw [sumPromptTok_append] at ihp
      rw [sumCompletionTok_append] at ihc
      rw [sumTotalTok_append] at iht
      refine ⟨?_, ?_, ?_, ?_⟩
      · simp only [consultLoopAux]
        rw [ihm]
        simp [hmodel]
      · simp only [consultLoopAux]
        omega
      · simp only [consultLoopAux]
        omega
      · simp only [consultLoopAux]
        omega

theorem consultLoop_models (api : ApiOracle) (prompt : String) (cid : Option String)
    (st : ServiceState) (ms : List String) :
    (consultLoop api prompt cid st ms).1.map (fun e => e.model) = ms := by
  have h := (consultLoopAux_spec api prompt cid ms st [] (0, 0, 0)).1
  simpa [consultLoop] using h

theorem consultLoop_totals (api : ApiOracle) (prompt : String) (cid : Option String)
    (st : ServiceState) (ms : List String) :
    (consultLoop api prompt cid st ms).2.1 =
      (sumPromptTok (consultLoop api prompt cid st ms).1,
       sumCompletionTok (consultLoop api prompt cid st ms).1,
       sumTotalTok (consultLoop api prompt cid st ms).1) := by
  obtain ⟨-, hp, hc, ht⟩ := consultLoopAux_spec api prompt cid ms st [] (0, 0, 0)
  refine Prod.ext ?_ (Prod.ext ?_ ?_)
  · simpa [consultLoop, sumPromptTok] using hp
  · simpa [consultLoop, sumCompletionTok] using hc
  · simpa [consultLoop, sumTotalTok] using ht

/-- Claim C2: a multi-model consultation with a non-empty list that passes
the rate limit always completes with a combined `ok` result whose entry
list covers every requested model in order and whose total usage triple is
the sum over all entries (absent usage fields count as zero); and an
upstream error for one model is caught inside the loop body, producing an
error-text entry with zeroed usage (contributing zero to every total) and
leaving the loop to continue from the post-history state. -/
theorem consultMultipleModels_isolation
    (api : ApiOracle) (st : ServiceState) (now : Nat) (args : ConsultArgs)
    (models : List String)
    (api2 : ApiOracle) (prompt2 : String) (cid2 : Option String)
    (st2 : ServiceState) (mid2 msg2 : String)
    (h1 : jsModels args.models = some models)
    (h2 : (checkLimit st.rateLimiter now
      ((jsStrOpt args.conversation_id).getD "global")).error = none)
    (h3 : cid2 = none → checkCache (loopHistory cid2 st2).2.cache prompt2
      (resolveBatchModel mid2) = none)
    (h4 : api2 prompt2 (resolveBatchModel mid2) (loopHistory cid2 st2).1 =
      .error msg2) :
    (∃ entries st',
      consultMultipleModels api st now args =
        .ok (⟨"Multi-model: " ++ String.intercalate ", " models,
              combineResponses entries,
              ⟨some (sumPromptTok entries), some (sumCompletionTok entries),
               some (sumTotalTok entries)⟩⟩, st') ∧
      entries.map (fun e => e.model) = models) ∧
    consultStep api2 prompt2 cid2 st2 mid2 =
      (⟨mid2, "Error: " ++ msg2, ⟨some 0, some 0, some 0⟩, false⟩, (0, 0, 0),
       (loopHistory cid2 st2).2) := by
  constructor
  · simp only [consultMultipleModels, h1, h2]
    simp only [consultLoop_totals]
    refine ⟨_, _, rfl, ?_⟩
    exact consultLoop_models _ _ _ _ _
  · cases cid2 with
    | none =>
        have h3' := h3 rfl
        unfold consultStep
        dsimp only
        simp only [h3', h4]
    | some c =>
        unfold consultStep
        dsimp only
        simp only [h4]

/-- An upstream oracle failing exactly for the Grok model. -/
def apiFailGrok : ApiOracle := fun _ m _ =>
  if m = "x-ai/grok-code-fast-1" then .error "boom"
  else .ok ⟨m, "ok", ⟨some 10, some 20, some 30⟩⟩

def argsTwoModels : ConsultArgs :=
  { prompt := "hello", models := some ["gpt-5-codex", "grok-code-fast-1"] }

/-- Witness for claim C2: a two-model batch whose second upstream call
fails still returns a combined result summing only the successful usage. -/
theorem consultMultipleModels_isolation_witness :
    (∃ entries st',
      consultMultipleModels apiFailGrok stEmptySvc 0 argsTwoModels =
        .ok (⟨"Multi-model: " ++
                String.intercalate ", " ["gpt-5-codex", "grok-code-fast-1"],
              combineResponses entries,
              ⟨some (sumPromptTok entries), some (sumCompletionTok entries),
               some (sumTotalTok entries)⟩⟩, st') ∧
      entries.map (fun e => e.model) = ["gpt-5-codex", "grok-code-fast-1"]) ∧
    consultStep apiFailGrok "hello" none stEmptySvc "grok-code-fast-1" =
      (⟨"grok-code-fast-1", "Error: " ++ "boom", ⟨some 0, some 0, some 0⟩, false⟩,
       (0, 0, 0), (loopHistory none stEmptySvc).2) :=
  consultMultipleModels_isolation apiFailGrok stEmptySvc 0 argsTwoModels
    ["gpt-5-codex", "grok-code-fast-1"] apiFailGrok "hello" none stEmptySvc
    "grok-code-fast-1" "boom" rfl rfl (fun _ => rfl) rfl

end AIConsultant
